import Mathlib

set_option maxRecDepth 16000

/-!
Shallow embedding of the OpenSCAD-to-Three.js converter
(src/src/utils/openscadConverter.ts) and the ASCII STL exporter
(src/src/utils/stlExporter.ts).

Modelling conventions, used throughout:
* JavaScript numbers are modelled over the rationals.  A value that may be
  NaN is modelled by `Option Rat` (`none` = NaN); arithmetic on such values
  propagates `none` exactly as JS arithmetic propagates NaN.  The inputs the
  claims quantify over never exercise float rounding, so exact rational
  arithmetic is a faithful model of the float computations involved
  (halving, addition, comparison against 0).
* The regular expressions the converter applies via `String.match` are
  executed by a small backtracking matcher (`Re` below) whose alternative
  order mirrors the JS engine: leftmost start position, greedy repetition
  tried longest first, alternation tried left first.  All patterns in the
  source contain exactly one capturing group; `firstCapture` returns the
  content of that group for the leftmost match, i.e. JS `match[1]`.
* `Math.sqrt` is modelled by `ratSqrt`, exact whenever the square root of
  the rational is rational (every case the theorems below depend on) and a
  floor-style approximation otherwise.
-/

/-- A JavaScript number that may be NaN: `none` is NaN. -/
abbrev QN := Option ℚ

/-- NaN-propagating division by 2 (JS `x / 2`). -/
def qnHalf (v : QN) : QN := v.map (fun q => q / 2)

/-- JS `v || d` on a number: NaN and 0 are falsy and give the default. -/
def jsOrQ (v : QN) (d : ℚ) : ℚ :=
  match v with
  | none => d
  | some x => if x = 0 then d else x

/-- JS array access `l[i]` where a missing element is `undefined`;
we conflate `undefined` with NaN (`none`) because the converter only ever
feeds such values into float arithmetic, where both produce NaN. -/
def nthQN (l : List QN) (i : Nat) : QN := (l.get? i).getD none

/-- The whitespace characters of JS `\s` that can occur in this
codebase (ASCII subset). -/
def wsChars : List Char := [' ', '\t', '\n', '\r', '\x0b', '\x0c']

def isWsChar (c : Char) : Bool := wsChars.contains c

/-- JS `\w`: ASCII letters, digits and underscore. -/
def isWordChar (c : Char) : Bool := c.isAlpha || c.isDigit || c = '_'

/-- JS `String.prototype.split` with a single-character separator, on the
character list: `"".split(sep)` is `[""]`, separators at the ends produce
empty pieces. -/
def splitChar (sep : Char) : List Char → List (List Char)
  | [] => [[]]
  | c :: t =>
    if c = sep then [] :: splitChar sep t
    else
      match splitChar sep t with
      | h :: r => (c :: h) :: r
      | [] => [[c]]

/-- JS `s.split(sep)` for a one-character separator. -/
def jsSplit (sep : Char) (s : String) : List String :=
  (splitChar sep s.data).map (fun l => ⟨l⟩)

/-- JS `String.prototype.trim`: strip leading and trailing whitespace. -/
def jsTrim (s : String) : String :=
  ⟨((s.data.dropWhile isWsChar).reverse.dropWhile isWsChar).reverse⟩

/-- JS `String.prototype.startsWith`. -/
def jsStartsWith (s t : String) : Bool := t.data.isPrefixOf s.data

/-- Join with the newline separator (JS `Array.prototype.join`). -/
def intercalateChar (c : Char) : List (List Char) → List Char
  | [] => []
  | [l] => l
  | l :: rest => l ++ c :: intercalateChar c rest

def joinLines (ls : List String) : String :=
  ⟨intercalateChar '\n' (ls.map String.data)⟩

/-- Digits of a decimal literal folded into a natural number. -/
def digitsToNat (ds : List Char) : Nat :=
  ds.foldl (fun acc c => 10 * acc + (c.toNat - '0'.toNat)) 0

/-- Helper for `jsParseFloat`: value of the digits after the decimal point. -/
def fracValue (ds : List Char) : ℚ :=
  (digitsToNat ds : ℚ) / ((10 : ℚ) ^ ds.length)

/-- JS `parseFloat` on a character list: skip leading whitespace, optional
sign, decimal digits with optional fractional part and optional exponent;
trailing garbage is ignored; `none` (NaN) when no digit was consumed.
(The `Infinity` literal and hexadecimal forms never occur in this code.) -/
def jsParseFloatCore (s : List Char) : QN :=
  let s1 := s.dropWhile isWsChar
  let (sgn, s2) : ℚ × List Char :=
    match s1 with
    | '-' :: t => (-1, t)
    | '+' :: t => (1, t)
    | t => (1, t)
  let intDs := s2.takeWhile Char.isDigit
  let s3 := s2.dropWhile Char.isDigit
  let (fracDs, s4) : List Char × List Char :=
    match s3 with
    | '.' :: t => (t.takeWhile Char.isDigit, t.dropWhile Char.isDigit)
    | t => ([], t)
  if intDs.isEmpty && fracDs.isEmpty then none
  else
    let mant : ℚ := sgn * ((digitsToNat intDs : ℚ) + fracValue fracDs)
    let expPart : Option (Int) :=
      match s4 with
      | 'e' :: t | 'E' :: t =>
        let (esgn, t2) : Int × List Char :=
          match t with
          | '-' :: u => (-1, u)
          | '+' :: u => (1, u)
          | u => (1, u)
        let eDs := t2.takeWhile Char.isDigit
        if eDs.isEmpty then none else some (esgn * (digitsToNat eDs : Int))
      | _ => none
    match expPart with
    | none => some mant
    | some e => some (mant * (10 : ℚ) ^ e)

def jsParseFloat (s : String) : QN := jsParseFloatCore s.data

/-- Substring containment, JS `String.prototype.includes`. -/
def containsSub (s sub : String) : Bool :=
  let rec go : List Char → Bool
    | [] => sub.data.isPrefixOf []
    | c :: t => sub.data.isPrefixOf (c :: t) || go t
  go s.data

/-- Index of the first occurrence of `sub` in `s` (JS `indexOf`),
`none` when absent. -/
def findSubIdx (s sub : String) : Option Nat :=
  let rec go : List Char → Nat → Option Nat
    | [], i => if sub.data.isPrefixOf ([] : List Char) then some i else none
    | c :: t, i => if sub.data.isPrefixOf (c :: t) then some i else go t (i + 1)
  go s.data 0

/-- Drop everything from the first `//` on (the single-line-comment pass of
the converter, applied per line). -/
def stripLineComment (line : String) : String :=
  match findSubIdx line "//" with
  | some i => ⟨line.data.take i⟩
  | none => line

/-- One step of the lazy global replace of `/* ... *\/`:  after a `/` `*`
opener, drop up to and including the nearest `*` `/`; an unterminated
block comment is left in place (the lazy regex needs the terminator). -/
def dropToClose : List Char → Option (List Char)
  | [] => none
  | '*' :: '/' :: t => some t
  | _ :: t => dropToClose t

/-- Fuel-indexed scanner for `removeBlockComments`. -/
def removeBlockCommentsAux : Nat → List Char → List Char
  | 0, s => s
  | _ + 1, [] => []
  | fuel + 1, '/' :: '*' :: t =>
    match dropToClose t with
    | some rest => removeBlockCommentsAux fuel rest
    | none => '/' :: '*' :: t
  | fuel + 1, c :: t => c :: removeBlockCommentsAux fuel t

/-- JS `.replace(/\/\*[\s\S]*?\*\//g, '')`. -/
def removeBlockComments (s : String) : String :=
  ⟨removeBlockCommentsAux s.data.length s.data⟩

/-- Syntax of the (tiny) regular-expression fragment the converter uses:
character literals, (negated) character sets, `\s`, `\w`, concatenation,
alternation, greedy `*` and a single capturing group per pattern. -/
inductive Re where
  | eps
  | chr (c : Char)
  | cls (neg : Bool) (cs : List Char)
  | ws
  | wrd
  | seq (a b : Re)
  | alt (a b : Re)
  | star (r : Re)
  | grp (r : Re)
deriving Repr

/-- Greedy `+`. -/
def Re.plus (r : Re) : Re := .seq r (.star r)

/-- Greedy `?`. -/
def Re.opt (r : Re) : Re := .alt r .eps

/-- Concatenation of a list of regexes. -/
def Re.seqs (l : List Re) : Re := l.foldr .seq .eps

/-- A string literal as a regex. -/
def Re.str (s : String) : Re := .seqs (s.data.map .chr)

/-- Structural size of a regex, used to bound the matcher fuel. -/
def Re.size : Re → Nat
  | .eps | .chr _ | .cls _ _ | .ws | .wrd => 1
  | .seq a b | .alt a b => a.size + b.size + 1
  | .star r | .grp r => r.size + 1

/-- All ways `re` can match a prefix of `s`, in the order the JS
backtracking engine explores them (first element = the match JS commits
to).  Each result is the remaining suffix paired with the capture of the
innermost group matched so far.  `fuel` bounds the recursion depth; every
use below supplies enough fuel for the complete search. -/
def reMatches : Nat → Re → List Char → List (List Char × Option (List Char))
  | 0, _, _ => []
  | _ + 1, .eps, s => [(s, none)]
  | _ + 1, .chr c, s =>
    match s with
    | [] => []
    | c' :: t => if c' = c then [(t, none)] else []
  | _ + 1, .cls neg cs, s =>
    match s with
    | [] => []
    | c :: t => if (cs.contains c) ≠ neg then [(t, none)] else []
  | _ + 1, .ws, s =>
    match s with
    | [] => []
    | c :: t => if isWsChar c then [(t, none)] else []
  | _ + 1, .wrd, s =>
    match s with
    | [] => []
    | c :: t => if isWordChar c then [(t, none)] else []
  | fuel + 1, .seq a b, s =>
    (reMatches fuel a s).flatMap (fun p =>
      (reMatches fuel b p.1).map (fun q => (q.1, p.2.orElse (fun _ => q.2))))
  | fuel + 1, .alt a b, s => reMatches fuel a s ++ reMatches fuel b s
  | fuel + 1, .grp r, s =>
    (reMatches fuel r s).map (fun p => (p.1, some (s.take (s.length - p.1.length))))
  | fuel + 1, .star r, s =>
    ((reMatches fuel r s).flatMap (fun p =>
      if p.1.length < s.length then
        (reMatches fuel (.star r) p.1).map (fun q => (q.1, p.2.orElse (fun _ => q.2)))
      else [])) ++ [(s, none)]

/-- Fuel sufficient for the patterns and strings this file runs the
matcher on (depth of the backtracking search is bounded by interleavings
of pattern positions and input positions). -/
def reFuel (re : Re) (s : List Char) : Nat := (re.size + 2) * (s.length + 2)

/-- The capture (JS `match[1]`) of the leftmost match of `re` in `s`,
`none` when the whole string has no match.  Mirrors `String.match` with a
single-group pattern: try each start position left to right, at each the
backtracking order of `reMatches`. -/
def firstCapture (re : Re) (s : String) : Option String :=
  let rec go : List Char → Option String
    | [] =>
      match (reMatches (reFuel re []) re []).head? with
      | some p => some ⟨p.2.getD []⟩
      | none => none
    | c :: t =>
      match (reMatches (reFuel re (c :: t)) re (c :: t)).head? with
      | some p => some ⟨p.2.getD []⟩
      | none => go t
  go s.data

/-- `/cube\(\s*\[([^\]]+)\]\s*\)/` -/
def cubeBracketRe : Re :=
  .seqs [.str "cube(", .star .ws, .chr '[', .grp (.plus (.cls true [']'])),
         .chr ']', .star .ws, .chr ')']

/-- `/cube\(\s*([^,\[\]]+)\s*\)/` -/
def cubeSingleRe : Re :=
  .seqs [.str "cube(", .star .ws, .grp (.plus (.cls true [',', '[', ']'])),
         .star .ws, .chr ')']

/-- `/sphere\((?:r\s*=\s*)?([^,)]+)/` -/
def sphereRe : Re :=
  .seqs [.str "sphere(",
         .opt (.seqs [.chr 'r', .star .ws, .chr '=', .star .ws]),
         .grp (.plus (.cls true [',', ')']))]

/-- A named scalar parameter `/NAME\s*=\s*([^,)]+)/`. -/
def namedParamRe (name : String) : Re :=
  .seqs [.str name, .star .ws, .chr '=', .star .ws, .grp (.plus (.cls true [',', ')']))]

/-- `/translate\(\[([^\]]+)\]\)/` -/
def translateRe : Re :=
  .seqs [.str "translate([", .grp (.plus (.cls true [']'])), .str "])"]

/-- `/translate\([^)]+\)\s*(\w+\([^)]+\))/` -/
def translateChildRe : Re :=
  .seqs [.str "translate(", .plus (.cls true [')']), .chr ')', .star .ws,
         .grp (.seqs [.plus .wrd, .chr '(', .plus (.cls true [')']), .chr ')'])]

/-- `/rotate\(\[([^\]]+)\]\)/` -/
def rotateRe : Re :=
  .seqs [.str "rotate([", .grp (.plus (.cls true [']'])), .str "])"]

/-- `/rotate\([^)]+\)\s*(\w+\([^)]+\))/` -/
def rotateChildRe : Re :=
  .seqs [.str "rotate(", .plus (.cls true [')']), .chr ')', .star .ws,
         .grp (.seqs [.plus .wrd, .chr '(', .plus (.cls true [')']), .chr ')'])]

/-- `/difference\(\)\s*\x7b([^\x7d]+)\x7d/` (braces written as their codes). -/
def differenceRe : Re :=
  .seqs [.str "difference()", .star .ws, .chr '\x7b',
         .grp (.plus (.cls true ['\x7d'])), .chr '\x7d']

/-- The material of a Three.js `MeshPhongMaterial` call: colour, the
`transparent` flag and the opacity. -/
structure Material where
  color : Nat
  transparent : Bool
  opacity : ℚ
deriving Repr, DecidableEq

def cubeMaterial : Material := ⟨0x667eea, true, 9 / 10⟩
def sphereMaterial : Material := ⟨0x764ba2, true, 9 / 10⟩
def cylinderMaterial : Material := ⟨0x48bb78, true, 9 / 10⟩
def differenceMaterial : Material := ⟨0xed8936, true, 9 / 10⟩

/-- The geometry constructor calls the converter makes.  Arguments are the
constructor arguments in source order:
`BoxGeometry(width, height, depth)`, `SphereGeometry(radius, 32, 32)`,
`CylinderGeometry(radiusTop, radiusBottom, height, 32)`. -/
inductive Geom where
  | box (width height depth : QN)
  | sphere (radius : QN) (widthSeg heightSeg : Nat)
  | cylinder (radiusTop radiusBottom height : QN) (radialSeg : Nat)
deriving Repr, DecidableEq

/-- A vector of three JS numbers (each possibly NaN). -/
structure Vec3N where
  x : QN
  y : QN
  z : QN
deriving Repr, DecidableEq

/-- The zero vector (fresh Three.js objects have position and rotation 0). -/
def vzero : Vec3N := ⟨some 0, some 0, some 0⟩

/-- A Three.js mesh as the converter builds it: geometry, material, local
position, and local Euler rotation.  Rotation components are stored in
units of pi radians (the source only ever writes `Math.PI / 2` and
`degrees * Math.PI / 180`, so the stored value `q` denotes `q * pi` and
stays rational). -/
structure Mesh where
  geom : Geom
  material : Material
  pos : Vec3N
  rot : Vec3N
deriving Repr, DecidableEq

/-- The rotation `mesh.rotation.x = Math.PI / 2` given to cylinders. -/
def cylRot : Vec3N := ⟨some (1 / 2), some 0, some 0⟩

/-- A node of the produced Three.js object tree: a mesh, or a `Group` with
its own position/rotation and children. -/
inductive Obj where
  | mesh (m : Mesh)
  | group (pos rot : Vec3N) (children : List Obj)

def cubeBracketCapture (line : String) : Option String := firstCapture cubeBracketRe line
def cubeSingleCapture (line : String) : Option String := firstCapture cubeSingleRe line

/-- `match[1].split(',').map(s => parseFloat(s.trim()))`. -/
def splitParams (cap : String) : List QN :=
  (jsSplit ',' cap).map (fun s => jsParseFloat (jsTrim s))

/-- The cube mesh built from a resolved size: box geometry of that size and
the half-extent translation `mesh.position.set(x/2, y/2, z/2)` (OpenSCAD
cubes start at the origin). -/
def mkCubeMesh (sx sy sz : QN) : Mesh :=
  ⟨.box sx sy sz, cubeMaterial, ⟨qnHalf sx, qnHalf sy, qnHalf sz⟩, vzero⟩

/-- `parseCube` of src/src/utils/openscadConverter.ts. -/
def parseCube (line : String) : Option Mesh :=
  match cubeBracketCapture line with
  | some cap =>
    let params := splitParams cap
    match params with
    | [p] => some (mkCubeMesh p p p)
    | _ =>
      some (mkCubeMesh (some (jsOrQ (nthQN params 0) 1))
                       (some (jsOrQ (nthQN params 1) 1))
                       (some (jsOrQ (nthQN params 2) 1)))
  | none =>
    match cubeSingleCapture line with
    | some cap =>
      let v := jsParseFloat (jsTrim cap)
      some (mkCubeMesh v v v)
    | none => none

/-- `parseSphere` of src/src/utils/openscadConverter.ts. -/
def parseSphere (line : String) : Option Mesh :=
  (firstCapture sphereRe line).map (fun cap =>
    ⟨.sphere (jsParseFloat (jsTrim cap)) 32 32, sphereMaterial, vzero, vzero⟩)

/-- `parseCylinder` of src/src/utils/openscadConverter.ts.  Each parameter
comes from its own named-parameter regex over the whole line; a missing
match falls back to the default (`h` and `r` default to 1, `r1`/`r2`
default to `r`).  The constructed geometry is
`CylinderGeometry(r2, r1, height, 32)` with `rotation.x = Math.PI / 2`. -/
def parseCylinder (line : String) : Option Mesh :=
  let height : QN := match firstCapture (namedParamRe "h") line with
    | some cap => jsParseFloat cap
    | none => some 1
  let radius : QN := match firstCapture (namedParamRe "r") line with
    | some cap => jsParseFloat cap
    | none => some 1
  let r1 : QN := match firstCapture (namedParamRe "r1") line with
    | some cap => jsParseFloat cap
    | none => radius
  let r2 : QN := match firstCapture (namedParamRe "r2") line with
    | some cap => jsParseFloat cap
    | none => radius
  some ⟨.cylinder r2 r1 height 32, cylinderMaterial, vzero, cylRot⟩

/-- Dispatch on the child call found after a transform, by
`childLine.startsWith` in source order. -/
def parseTransformChild (childLine : String) : Option Mesh :=
  if jsStartsWith childLine "cube" then parseCube childLine
  else if jsStartsWith childLine "sphere" then parseSphere childLine
  else if jsStartsWith childLine "cylinder" then parseCylinder childLine
  else none

/-- `parseTranslate` of src/src/utils/openscadConverter.ts: read the
coordinates from the line, locate the first `translate(...) child(...)`
occurrence in the whole cleaned source, parse that child, and return a
group positioned at the coordinates (with the child when it parsed). -/
def parseTranslate (line fullCode : String) : Option Obj :=
  match firstCapture translateRe line with
  | none => none
  | some cap =>
    let coords := splitParams cap
    let pos : Vec3N := ⟨nthQN coords 0, nthQN coords 1, nthQN coords 2⟩
    match firstCapture translateChildRe fullCode with
    | none => none
    | some childLine =>
      some (.group pos vzero
        (match parseTransformChild childLine with
         | some m => [.mesh m]
         | none => []))

/-- `parseRotate` of src/src/utils/openscadConverter.ts.  Angles are
`parseFloat(s.trim()) * Math.PI / 180`; in pi units that is `q / 180`.
Unlike `parseTranslate`, a missing child match still returns the group. -/
def parseRotate (line fullCode : String) : Option Obj :=
  match firstCapture rotateRe line with
  | none => none
  | some cap =>
    let angles := (jsSplit ',' cap).map
      (fun s => (jsParseFloat (jsTrim s)).map (fun q => q / 180))
    let rot : Vec3N := ⟨nthQN angles 0, nthQN angles 1, nthQN angles 2⟩
    let children : List Obj :=
      match firstCapture rotateChildRe fullCode with
      | none => []
      | some childLine =>
        match parseTransformChild childLine with
        | some m => [.mesh m]
        | none => []
    some (.group vzero rot children)

/-- The loop body of `parseDifference`: first line whose trimmed form
starts with `cube` and parses, recoloured with the difference material. -/
def firstCubeOfLines : List String → Option Mesh
  | [] => none
  | l :: rest =>
    let t := jsTrim l
    if jsStartsWith t "cube" then
      match parseCube t with
      | some m => some { m with material := differenceMaterial }
      | none => firstCubeOfLines rest
    else firstCubeOfLines rest

/-- `parseDifference` of src/src/utils/openscadConverter.ts: extract the
block content of the first `difference() { ... }`, then render only the
first cube found inside it (recoloured); all other children are ignored. -/
def parseDifference (code : String) : Option Obj :=
  match firstCapture differenceRe code with
  | none => none
  | some content =>
    some (.group vzero vzero
      (match firstCubeOfLines (jsSplit '\n' content) with
       | some m => [.mesh m]
       | none => []))

/-- The per-line dispatch of the statement loop in
`parseOpenSCADToThreeJS` (matching on `includes`, in source order). -/
def lineToObj (line cleanCode : String) : Option Obj :=
  let t := jsTrim line
  if t.data.isEmpty then none
  else if containsSub t "cube(" then (parseCube t).map .mesh
  else if containsSub t "sphere(" then (parseSphere t).map .mesh
  else if containsSub t "cylinder(" then (parseCylinder t).map .mesh
  else if containsSub t "translate(" then parseTranslate t cleanCode
  else if containsSub t "rotate(" then parseRotate t cleanCode
  else if containsSub t "difference()" then parseDifference cleanCode
  else none

/-- Comment removal pass of `parseOpenSCADToThreeJS`: strip `//` per line,
rejoin, then remove block comments. -/
def cleanSource (code : String) : String :=
  removeBlockComments
    (joinLines ((jsSplit '\n' code).map stripLineComment))

/-- The children the top-level group accumulates: each line of the cleaned
source that the dispatch recognises and parses contributes one object. -/
def parsedObjects (code : String) : List Obj :=
  let cc := cleanSource code
  (jsSplit '\n' cc).filterMap (fun l => lineToObj l cc)

def noGeometryMsg : String :=
  "No valid OpenSCAD primitives found. Supported: cube, sphere, cylinder, translate, rotate"

/-- `parseOpenSCADToThreeJS` of src/src/utils/openscadConverter.ts,
returning the children of the produced top-level `THREE.Group`, or the
thrown error when no object was parsed (the catch block rethrows). -/
def parseOpenSCADToThreeJS (code : String) : Except String (List Obj) :=
  let objs := parsedObjects code
  if objs.isEmpty then .error noGeometryMsg else .ok objs

/-- A point with (non-NaN) rational coordinates. -/
structure P3 where
  x : ℚ
  y : ℚ
  z : ℚ
deriving Repr, DecidableEq

def P3.add (a b : P3) : P3 := ⟨a.x + b.x, a.y + b.y, a.z + b.z⟩

/-- An axis-aligned bounding box. -/
structure BBox where
  lo : P3
  hi : P3
deriving Repr, DecidableEq

/-- Extents (size per axis) of a bounding box. -/
def BBox.extents (b : BBox) : P3 :=
  ⟨b.hi.x - b.lo.x, b.hi.y - b.lo.y, b.hi.z - b.lo.z⟩

/-- Centre of a bounding box. -/
def BBox.center (b : BBox) : P3 :=
  ⟨(b.lo.x + b.hi.x) / 2, (b.lo.y + b.hi.y) / 2, (b.lo.z + b.hi.z) / 2⟩

def BBox.translate (p : P3) (b : BBox) : BBox :=
  ⟨b.lo.add p, b.hi.add p⟩

def BBox.union (a b : BBox) : BBox :=
  ⟨⟨min a.lo.x b.lo.x, min a.lo.y b.lo.y, min a.lo.z b.lo.z⟩,
   ⟨max a.hi.x b.hi.x, max a.hi.y b.hi.y, max a.hi.z b.hi.z⟩⟩

/-- A symmetric interval `[-|h|, |h|]` written with min/max so that it is
correct for either sign of `h`. -/
def symIv (h : ℚ) : ℚ × ℚ := (min h (-h), max h (-h))

/-- Axis-aligned bounding box of the vertices each Three.js geometry
constructor generates, in the geometry frame.  All three geometries are
centred on the origin: `BoxGeometry(w,h,d)` spans half the extent each
way, `SphereGeometry(r,_,_)` spans the radius, and
`CylinderGeometry(rt,rb,h,_)` has its axis along Y spanning `h/2` and its
radial extent `max(rt,rb)` along X and Z.  `none` when a constructor
argument is NaN (the float bbox would be all-NaN). -/
def geomBBox : Geom → Option BBox
  | .box (some w) (some h) (some d) =>
    let ix := symIv (w / 2); let iy := symIv (h / 2); let iz := symIv (d / 2)
    some ⟨⟨ix.1, iy.1, iz.1⟩, ⟨ix.2, iy.2, iz.2⟩⟩
  | .sphere (some r) _ _ =>
    let iv := symIv r
    some ⟨⟨iv.1, iv.1, iv.1⟩, ⟨iv.2, iv.2, iv.2⟩⟩
  | .cylinder (some rt) (some rb) (some h) _ =>
    let ir := symIv (max (max rt (-rt)) (max rb (-rb)))
    let ih := symIv (h / 2)
    some ⟨⟨ir.1, ih.1, ir.1⟩, ⟨ir.2, ih.2, ir.2⟩⟩
  | _ => none

/-- Image of a bounding box under the rotation by +90 degrees about the X
axis (`rotation.x = Math.PI / 2`): a point `(x, y, z)` maps to
`(x, -z, y)`, so the Y range becomes the negated Z range and the Z range
becomes the Y range. -/
def rotX90BBox (b : BBox) : BBox :=
  ⟨⟨b.lo.x, -b.hi.z, b.lo.y⟩, ⟨b.hi.x, -b.lo.z, b.hi.y⟩⟩

/-- All three components of a possibly-NaN vector, when none is NaN. -/
def vecP3 (v : Vec3N) : Option P3 :=
  match v.x, v.y, v.z with
  | some a, some b, some c => some ⟨a, b, c⟩
  | _, _, _ => none

/-- World bounding box of a mesh inside its own node frame: the geometry
bounding box, rotated by the mesh rotation (the converter only ever uses
the identity and the cylinder X quarter-turn; any other rotation is out of
the rational model and yields `none`), then translated by the mesh
position. -/
def meshBBox (m : Mesh) : Option BBox :=
  match geomBBox m.geom with
  | none => none
  | some bb =>
    let rotated : Option BBox :=
      if m.rot = vzero then some bb
      else if m.rot = cylRot then some (rotX90BBox bb)
      else none
    match rotated, vecP3 m.pos with
    | some bb2, some p => some (BBox.translate p bb2)
    | _, _ => none

mutual
/-- Bounding box of an object tree (meshes plus unrotated groups). -/
def objBBox : Obj → Option BBox
  | .mesh m => meshBBox m
  | .group p r cs =>
    if r = vzero then
      match vecP3 p, objListBBox cs with
      | some pt, some bb => some (BBox.translate pt bb)
      | _, _ => none
    else none

/-- Union of the bounding boxes of a non-empty list of objects. -/
def objListBBox : List Obj → Option BBox
  | [] => none
  | [o] => objBBox o
  | o :: rest =>
    match objBBox o, objListBBox rest with
    | some a, some b => some (BBox.union a b)
    | _, _ => none
end


/-- Largest `k` in `fuel, fuel - 1, ..., 0` with `k * k ≤ n` (an integer
square root by downward search; called with `fuel = n`). -/
def natSqrtDown (n : Nat) : Nat → Nat
  | 0 => 0
  | k + 1 => if (k + 1) * (k + 1) ≤ n then k + 1 else natSqrtDown n k

/-- Integer square root (floor). -/
def natSqrt (n : Nat) : Nat := natSqrtDown n n

/-- Square root over the rationals modelling `Math.sqrt` on the values the
serializer feeds it: exact whenever the true square root is rational
(numerator and denominator both perfect squares), otherwise a floor-style
rational approximation standing in for the float result.  No theorem in
this file depends on the approximate branch. -/
def ratSqrt (q : ℚ) : ℚ :=
  if q ≤ 0 then 0
  else
    let n := q.num.toNat
    let d := q.den
    if natSqrt n * natSqrt n = n ∧ natSqrt d * natSqrt d = d then
      (natSqrt n : ℚ) / (natSqrt d : ℚ)
    else (natSqrt (n * d) : ℚ) / (d : ℚ)

def P3.sub (a b : P3) : P3 := ⟨a.x - b.x, a.y - b.y, a.z - b.z⟩

def P3.dot (a b : P3) : ℚ := a.x * b.x + a.y * b.y + a.z * b.z

def P3.cross (a b : P3) : P3 :=
  ⟨a.y * b.z - a.z * b.y, a.z * b.x - a.x * b.z, a.x * b.y - a.y * b.x⟩

def P3.add3 (a b c : P3) : P3 := ⟨a.x + b.x + c.x, a.y + b.y + c.y, a.z + b.z + c.z⟩

/-- Three.js `Vector3.normalize`: divide by `length() || 1` (the zero
vector stays zero rather than producing NaN). -/
def normalizeV (v : P3) : P3 :=
  let len := ratSqrt (P3.dot v v)
  let l := if len = 0 then 1 else len
  ⟨v.x / l, v.y / l, v.z / l⟩

/-- A Three.js `Matrix4` in the row/column naming of `Matrix4.set`:
`mRC` is row R, column C. -/
structure M4 where
  (m11 m12 m13 m14 : ℚ)
  (m21 m22 m23 m24 : ℚ)
  (m31 m32 m33 m34 : ℚ)
  (m41 m42 m43 m44 : ℚ)
deriving Repr, DecidableEq

def idM4 : M4 := ⟨1,0,0,0, 0,1,0,0, 0,0,1,0, 0,0,0,1⟩

/-- Three.js `Vector3.applyMatrix4`: apply the matrix with perspective
divide by the resulting w coordinate (w is 1 for the affine matrices this
program builds; for a degenerate w = 0 the rational division yields 0
where the floats would give infinities — no theorem depends on that
corner). -/
def applyM4 (m : M4) (v : P3) : P3 :=
  let w := m.m41 * v.x + m.m42 * v.y + m.m43 * v.z + m.m44
  let iw := 1 / w
  ⟨(m.m11 * v.x + m.m12 * v.y + m.m13 * v.z + m.m14) * iw,
   (m.m21 * v.x + m.m22 * v.y + m.m23 * v.z + m.m24) * iw,
   (m.m31 * v.x + m.m32 * v.y + m.m33 * v.z + m.m34) * iw⟩

/-- Three.js `Matrix4.extractRotation(m)`: copy the three basis columns of
`m` scaled to unit length, clear the translation, keep the homogeneous
row. -/
def extractRotation (m : M4) : M4 :=
  let lx := ratSqrt (m.m11 * m.m11 + m.m21 * m.m21 + m.m31 * m.m31)
  let ly := ratSqrt (m.m12 * m.m12 + m.m22 * m.m22 + m.m32 * m.m32)
  let lz := ratSqrt (m.m13 * m.m13 + m.m23 * m.m23 + m.m33 * m.m33)
  let sx := 1 / lx
  let sy := 1 / ly
  let sz := 1 / lz
  ⟨m.m11 * sx, m.m12 * sy, m.m13 * sz, 0,
   m.m21 * sx, m.m22 * sy, m.m23 * sz, 0,
   m.m31 * sx, m.m32 * sy, m.m33 * sz, 0,
   0, 0, 0, 1⟩

/-- Decimal-or-fraction rendering of a rational, standing in for the JS
default number-to-string conversion in the emitted STL text. -/
def showQ (q : ℚ) : String :=
  if q.den = 1 then toString q.num else toString q.num ++ "/" ++ toString q.den

/-- One `facet ... endfacet` record of the ASCII STL grammar. -/
def facetStr (n v1 v2 v3 : P3) : String :=
  "  facet normal " ++ showQ n.x ++ " " ++ showQ n.y ++ " " ++ showQ n.z ++ "\n" ++
  "    outer loop\n" ++
  "      vertex " ++ showQ v1.x ++ " " ++ showQ v1.y ++ " " ++ showQ v1.z ++ "\n" ++
  "      vertex " ++ showQ v2.x ++ " " ++ showQ v2.y ++ " " ++ showQ v2.z ++ "\n" ++
  "      vertex " ++ showQ v3.x ++ " " ++ showQ v3.y ++ " " ++ showQ v3.z ++ "\n" ++
  "    endloop\n" ++
  "  endfacet\n"

/-- A mesh as the serializer sees it: the `position` buffer attribute (the
source guards against its absence), an optional `normal` attribute, an
optional index buffer, and the accumulated world matrix. -/
structure MeshData where
  position : Option (List P3)
  normal : Option (List P3)
  index : Option (List Nat)
  matrixWorld : M4

/-- The object tree passed to the exporter: `group.traverse` collects the
meshes in preorder. -/
inductive SceneNode where
  | mesh (d : MeshData)
  | group (children : List SceneNode)

mutual
def collectMeshes : SceneNode → List MeshData
  | .mesh d => [d]
  | .group cs => collectMeshesList cs

def collectMeshesList : List SceneNode → List MeshData
  | [] => []
  | n :: rest => collectMeshes n ++ collectMeshesList rest
end

/-- Message of the exception a JS property access on `undefined` raises;
used where the source indexes out of range. -/
def oobMsg : String := "TypeError"

/-- `l[i]` where the JS code would go on to dereference the element. -/
def exGet (l : List P3) (i : Nat) : Except String P3 :=
  match l.get? i with
  | some v => .ok v
  | none => .error oobMsg

/-- The facet-normal computation of `generateSTL` for one triangle:
if the mesh carried a normal attribute (`hasN`), the three (already
world-rotated) vertex normals are summed and normalized; otherwise the
normal is the normalized cross product of the two edge vectors
`v2 - v1` and `v3 - v1`, in that winding order. -/
def triNormal (hasN : Bool) (ns : List P3) (i1 i2 i3 : Nat) (v1 v2 v3 : P3) :
    Except String P3 :=
  if hasN then
    match ns.get? i1, ns.get? i2, ns.get? i3 with
    | some n1, some n2, some n3 => .ok (normalizeV (P3.add3 n1 n2 n3))
    | _, _, _ => .error oobMsg
  else .ok (normalizeV (P3.cross (P3.sub v2 v1) (P3.sub v3 v1)))

/-- The indexed-geometry loop of `generateSTL`: `vs` are the
world-transformed vertices, `ns` the world-rotated normals.  A triple of
indices that leads outside the vertex (or normal) array is the JS
undefined dereference, an exception; a trailing partial triple likewise
(the loop would read `index.getX` out of range and then dereference
`vertices[undefined]`). -/
def indexedFacets (vs ns : List P3) (hasN : Bool) : List Nat → Except String String
  | [] => .ok ""
  | i1 :: i2 :: i3 :: rest =>
    match exGet vs i1, exGet vs i2, exGet vs i3 with
    | .ok v1, .ok v2, .ok v3 =>
      match triNormal hasN ns i1 i2 i3 v1 v2 v3 with
      | .ok n =>
        match indexedFacets vs ns hasN rest with
        | .ok s => .ok (facetStr n v1 v2 v3 ++ s)
        | .error e => .error e
      | .error e => .error e
    | _, _, _ => .error oobMsg
  | _ => .error oobMsg

/-- The non-indexed loop of `generateSTL`: consume the world vertices
three at a time (a trailing partial triple is skipped by the
`!v1 || !v2 || !v3` guard, ending the output); `i` is the running start
index used to address the normal array. -/
def soupFacets (ns : List P3) (hasN : Bool) : List P3 → Nat → Except String String
  | v1 :: v2 :: v3 :: rest, i =>
    match triNormal hasN ns i (i + 1) (i + 2) v1 v2 v3 with
    | .ok n =>
      match soupFacets ns hasN rest (i + 3) with
      | .ok s => .ok (facetStr n v1 v2 v3 ++ s)
      | .error e => .error e
    | .error e => .error e
  | _, _ => .ok ""

/-- The per-mesh body of `generateSTL`: transform every vertex by the
world matrix and every normal by the extracted rotation up front, then
run the indexed or non-indexed loop. -/
def meshSTL (d : MeshData) : Except String String :=
  match d.position with
  | none => .ok ""
  | some pos =>
    let vs := pos.map (applyM4 d.matrixWorld)
    let ns : List P3 :=
      match d.normal with
      | some nl => nl.map (applyM4 (extractRotation d.matrixWorld))
      | none => []
    let hasN := !ns.isEmpty
    match d.index with
    | some idx => indexedFacets vs ns hasN idx
    | none => soupFacets ns hasN vs 0

def meshListSTL : List MeshData → Except String String
  | [] => .ok ""
  | d :: rest =>
    match meshSTL d, meshListSTL rest with
    | .ok s, .ok r => .ok (s ++ r)
    | .error e, _ => .error e
    | _, .error e => .error e

def emptyExportMsg : String := "No meshes to export"

/-- `generateSTL` of src/src/utils/stlExporter.ts: collect the meshes of
the scene, fail when there are none, otherwise wrap the per-mesh facet
records in the `solid model` / `endsolid model` envelope. -/
def generateSTL (o : SceneNode) : Except String String :=
  let ms := collectMeshes o
  if ms.isEmpty then .error emptyExportMsg
  else
    match meshListSTL ms with
    | .ok body => .ok ("solid model\n" ++ body ++ "endsolid model\n")
    | .error e => .error e

/-- Specification-side serializer, written from the words of the spec
(section 4.4 and the C6 claim): for every triangle of every node emit a
`facet normal / outer loop / vertex x3 / endloop / endfacet` record whose
vertex coordinates are the LOCAL vertex positions transformed by the
node accumulated world matrix at the point of use (never the raw local
coordinates), all wrapped between `solid model` and `endsolid model`.
The facet normal of a triangle follows the same selection as the code
(`triNormal`), with each carried normal rotated into the world frame at
the point of use. -/
def specTriNormal (rot : M4) (hasN : Bool) (rawNs : List P3) (i1 i2 i3 : Nat)
    (w1 w2 w3 : P3) : Except String P3 :=
  if hasN then
    match rawNs.get? i1, rawNs.get? i2, rawNs.get? i3 with
    | some n1, some n2, some n3 =>
      .ok (normalizeV (P3.add3 (applyM4 rot n1) (applyM4 rot n2) (applyM4 rot n3)))
    | _, _, _ => .error oobMsg
  else .ok (normalizeV (P3.cross (P3.sub w2 w1) (P3.sub w3 w1)))

/-- Spec-side indexed triangles: look the LOCAL vertex up, then transform
it by the world matrix where it is emitted. -/
def specIndexed (world rot : M4) (pos rawNs : List P3) (hasN : Bool) :
    List Nat → Except String String
  | [] => .ok ""
  | i1 :: i2 :: i3 :: rest =>
    match exGet pos i1, exGet pos i2, exGet pos i3 with
    | .ok p1, .ok p2, .ok p3 =>
      let w1 := applyM4 world p1
      let w2 := applyM4 world p2
      let w3 := applyM4 world p3
      match specTriNormal rot hasN rawNs i1 i2 i3 w1 w2 w3 with
      | .ok n =>
        match specIndexed world rot pos rawNs hasN rest with
        | .ok s => .ok (facetStr n w1 w2 w3 ++ s)
        | .error e => .error e
      | .error e => .error e
    | _, _, _ => .error oobMsg
  | _ => .error oobMsg

/-- Spec-side triangle soup: consume the LOCAL vertices three at a time,
transforming each by the world matrix where it is emitted. -/
def specSoup (world rot : M4) (rawNs : List P3) (hasN : Bool) :
    List P3 → Nat → Except String String
  | p1 :: p2 :: p3 :: rest, i =>
    let w1 := applyM4 world p1
    let w2 := applyM4 world p2
    let w3 := applyM4 world p3
    match specTriNormal rot hasN rawNs i (i + 1) (i + 2) w1 w2 w3 with
    | .ok n =>
      match specSoup world rot rawNs hasN rest (i + 3) with
      | .ok s => .ok (facetStr n w1 w2 w3 ++ s)
      | .error e => .error e
    | .error e => .error e
  | _, _ => .ok ""

def specMeshSTL (d : MeshData) : Except String String :=
  match d.position with
  | none => .ok ""
  | some pos =>
    let rawNs : List P3 := (d.normal).getD []
    let hasN := !rawNs.isEmpty
    match d.index with
    | some idx =>
      specIndexed d.matrixWorld (extractRotation d.matrixWorld) pos rawNs hasN idx
    | none => specSoup d.matrixWorld (extractRotation d.matrixWorld) rawNs hasN pos 0

def specMeshListSTL : List MeshData → Except String String
  | [] => .ok ""
  | d :: rest =>
    match specMeshSTL d, specMeshListSTL rest with
    | .ok s, .ok r => .ok (s ++ r)
    | .error e, _ => .error e
    | _, .error e => .error e

/-- Spec-side serializer for a whole scene: the `solid model` header, one
facet record per triangle of every collected mesh with world-frame
vertices, and the `endsolid model` trailer; the documented fatal error
when the scene holds no mesh. -/
def specSceneSTL (o : SceneNode) : Except String String :=
  let ms := collectMeshes o
  if ms.isEmpty then .error emptyExportMsg
  else
    match specMeshListSTL ms with
    | .ok body => .ok ("solid model\n" ++ body ++ "endsolid model\n")
    | .error e => .error e

/-! Helper lemmas shared by the claim theorems. -/

theorem exGet_map (f : P3 → P3) (l : List P3) (i : Nat) :
    exGet (l.map f) i = (exGet l i).map f := by
  unfold exGet
  rw [List.get?_map]
  cases l.get? i <;> rfl

theorem triNormal_map (rot : M4) (hasN : Bool) (rawNs : List P3)
    (i1 i2 i3 : Nat) (w1 w2 w3 : P3) :
    triNormal hasN (rawNs.map (applyM4 rot)) i1 i2 i3 w1 w2 w3
      = specTriNormal rot hasN rawNs i1 i2 i3 w1 w2 w3 := by
  unfold triNormal specTriNormal
  cases hasN
  · rfl
  · simp only [List.get?_map]
    cases rawNs.get? i1 <;> cases rawNs.get? i2 <;> cases rawNs.get? i3 <;> rfl

theorem indexedFacets_spec (world rot : M4) (pos rawNs : List P3) (hasN : Bool) :
    ∀ idx : List Nat,
      indexedFacets (pos.map (applyM4 world)) (rawNs.map (applyM4 rot)) hasN idx
        = specIndexed world rot pos rawNs hasN idx
  | [] => rfl
  | [_] => rfl
  | [_, _] => rfl
  | i1 :: i2 :: i3 :: rest => by
    have ih := indexedFacets_spec world rot pos rawNs hasN rest
    simp only [indexedFacets, specIndexed, exGet_map, ih]
    cases exGet pos i1 <;> cases exGet pos i2 <;> cases exGet pos i3 <;>
      simp only [Except.map] <;> try rfl
    rw [triNormal_map]

theorem soupFacets_spec (world rot : M4) (rawNs : List P3) (hasN : Bool) :
    ∀ (pos : List P3) (i : Nat),
      soupFacets (rawNs.map (applyM4 rot)) hasN (pos.map (applyM4 world)) i
        = specSoup world rot rawNs hasN pos i
  | [], _ => rfl
  | [_], _ => rfl
  | [_, _], _ => rfl
  | p1 :: p2 :: p3 :: rest, i => by
    have ih := soupFacets_spec world rot rawNs hasN rest (i + 3)
    simp only [List.map, soupFacets, specSoup, ih]
    rw [triNormal_map]

theorem meshSTL_spec (d : MeshData) : meshSTL d = specMeshSTL d := by
  unfold meshSTL specMeshSTL
  cases hp : d.position with
  | none => rfl
  | some pos =>
    cases hn : d.normal with
    | none =>
      cases hi : d.index with
      | none =>
        simpa using soupFacets_spec d.matrixWorld (extractRotation d.matrixWorld) [] false pos 0
      | some idx =>
        simpa using
          indexedFacets_spec d.matrixWorld (extractRotation d.matrixWorld) pos [] false idx
    | some nl =>
      have hemp : ((nl.map (applyM4 (extractRotation d.matrixWorld))).isEmpty) = nl.isEmpty := by
        cases nl <;> rfl
      cases hi : d.index with
      | none =>
        simp only [Option.getD, hemp]
        exact soupFacets_spec d.matrixWorld (extractRotation d.matrixWorld) nl (!nl.isEmpty) pos 0
      | some idx =>
        simp only [Option.getD, hemp]
        exact indexedFacets_spec d.matrixWorld (extractRotation d.matrixWorld) pos nl
          (!nl.isEmpty) idx

theorem meshListSTL_spec : ∀ ms : List MeshData, meshListSTL ms = specMeshListSTL ms
  | [] => rfl
  | d :: rest => by
    have ih := meshListSTL_spec rest
    simp only [meshListSTL, specMeshListSTL, meshSTL_spec, ih]

/-- Claim C6: for every triangle of every mesh node in the scene, the STL
serializer emits vertex coordinates in the node world frame (the local
vertex positions transformed by the node accumulated world matrix), never
in local/object space, wrapped in the ASCII STL structure: a
`solid model` header, per-triangle
`facet normal / outer loop / vertex x3 / endloop / endfacet` records, and
a trailing `endsolid model`.  Formalised as: `generateSTL` coincides with
`specSceneSTL`, the serializer written from the words of the spec, which
emits each vertex as `applyM4 matrixWorld localVertex` at the point of
use and builds exactly that ASCII envelope. -/
theorem claim_C6_world_frame_stl (o : SceneNode) : generateSTL o = specSceneSTL o := by
  simp only [generateSTL, specSceneSTL, meshListSTL_spec]

/-- Claim C7: for every triangle serialized to STL, if the mesh carries
per-face normals the serializer uses them as the facet normal; otherwise
the facet normal is derived as the normalized cross product of the
triangle edge vectors in a fixed winding order.  `triNormal` is the facet
normal computation `generateSTL` runs per triangle (over the
world-rotated normal attribute): when the attribute is present and the
triangle carries a single (unit) per-face normal `n` — all three of its
vertex normals equal `n`, which is how a per-face normal is stored in a
per-vertex attribute — the emitted facet normal is exactly `n`; when no
normal attribute is present the facet normal is the normalized cross
product of the edges `v2 - v1` and `v3 - v1`. -/
theorem claim_C7_facet_normal (hasN : Bool) (ns : List P3) (i1 i2 i3 : Nat)
    (v1 v2 v3 n : P3) :
    (hasN = true → ns.get? i1 = some n → ns.get? i2 = some n → ns.get? i3 = some n →
      P3.dot n n = 1 → triNormal hasN ns i1 i2 i3 v1 v2 v3 = .ok n) ∧
    (hasN = false →
      triNormal hasN ns i1 i2 i3 v1 v2 v3
        = .ok (normalizeV (P3.cross (P3.sub v2 v1) (P3.sub v3 v1)))) := by
  constructor
  · intro hb h1 h2 h3 hunit
    subst hb
    unfold triNormal
    rw [h1, h2, h3]
    have hdot : P3.dot (P3.add3 n n n) (P3.add3 n n n) = 9 := by
      have expand : P3.dot (P3.add3 n n n) (P3.add3 n n n) = 9 * P3.dot n n := by
        simp only [P3.dot, P3.add3]
        ring
      rw [expand, hunit]
      norm_num
    have hsqrt : ratSqrt 9 = 3 := by with_unfolding_all rfl
    simp only [normalizeV, hdot, hsqrt]
    norm_num
    simp only [P3.add3]
    cases n with
    | mk x y z =>
      simp only [Except.ok.injEq, P3.mk.injEq]
      refine ⟨by ring, by ring, by ring⟩
  · intro hb
    subst hb
    rfl

/-- Claim C9: when STL export is requested on a scene graph containing no
meshes, `generateSTL` fails with the explicit `No meshes to export` error
rather than producing output. -/
theorem claim_C9_empty_export (o : SceneNode) (h : collectMeshes o = []) :
    generateSTL o = .error emptyExportMsg := by
  unfold generateSTL
  rw [h]
  rfl

/-- Witness for C9 at a concrete empty scene. -/
theorem claim_C9_empty_export_witness :
    collectMeshes (.group []) = [] ∧
      generateSTL (.group []) = .error emptyExportMsg :=
  ⟨rfl, claim_C9_empty_export (.group []) rfl⟩

/-- Claim C1: for every source buffer in which no statement is recognized
as geometry (the statement loop recognises and parses nothing, i.e.
`parsedObjects` is empty), `parseOpenSCADToThreeJS` fails with the
explicit no-geometry error — it never returns a scene, in particular
never a substitute placeholder shape. -/
theorem claim_C1_no_geometry_error (code : String) (h : parsedObjects code = []) :
    parseOpenSCADToThreeJS code = .error noGeometryMsg := by
  unfold parseOpenSCADToThreeJS
  rw [h]
  rfl

/-- Witness for C1: a buffer with zero recognized statements. -/
theorem claim_C1_no_geometry_error_witness :
    parsedObjects "hello world" = [] ∧
      parseOpenSCADToThreeJS "hello world" = .error noGeometryMsg := by
  have h : parsedObjects "hello world" = [] := by with_unfolding_all rfl
  exact ⟨h, claim_C1_no_geometry_error "hello world" h⟩

/-- Claim C3: for every source buffer, any line of the cleaned source
that the statement loop recognises and parses (a recognized statement)
ends up in a successful, non-empty scene that contains its object — in
particular a malformed statement elsewhere in the buffer is merely
dropped (the parse functions return null rather than aborting, and the
only failure of `parseOpenSCADToThreeJS` is the empty-scene one, which a
recognized statement rules out). -/
theorem claim_C3_partial_rendering (code line : String) (obj : Obj)
    (hmem : line ∈ jsSplit '\n' (cleanSource code))
    (hparse : lineToObj line (cleanSource code) = some obj) :
    ∃ objs, parseOpenSCADToThreeJS code = .ok objs ∧ obj ∈ objs := by
  have hobj : obj ∈ parsedObjects code := by
    have h : obj ∈ (jsSplit '\n' (cleanSource code)).filterMap
        (fun l => lineToObj l (cleanSource code)) :=
      List.mem_filterMap.mpr ⟨line, hmem, hparse⟩
    simpa [parsedObjects] using h
  refine ⟨parsedObjects code, ?_, hobj⟩
  unfold parseOpenSCADToThreeJS
  cases hpo : parsedObjects code with
  | nil => rw [hpo] at hobj; cases hobj
  | cons a t => rfl

/-- The example buffer of the spec: one recognized and one malformed
statement. -/
def mixedBuffer : String := "cube([10,10,10]);\ncube(bad syntax"

/-- The mesh of the recognized `cube([10,10,10]);` statement. -/
def cube10Mesh : Mesh := mkCubeMesh (some 10) (some 10) (some 10)

/-- Witness for C3 on the spec example buffer: the malformed second
statement is dropped (parses to nothing) while the recognized cube is in
the resulting scene. -/
theorem claim_C3_partial_rendering_witness :
    lineToObj "cube(bad syntax" (cleanSource mixedBuffer) = none ∧
      ∃ objs, parseOpenSCADToThreeJS mixedBuffer = .ok objs ∧ Obj.mesh cube10Mesh ∈ objs := by
  have hs : jsSplit '\n' (cleanSource mixedBuffer)
      = ["cube([10,10,10]);", "cube(bad syntax"] := by with_unfolding_all rfl
  have h1 : "cube([10,10,10]);" ∈ jsSplit '\n' (cleanSource mixedBuffer) := by
    rw [hs]; exact List.mem_cons_self _ _
  have h2 : lineToObj "cube([10,10,10]);" (cleanSource mixedBuffer)
      = some (.mesh cube10Mesh) := by with_unfolding_all rfl
  have hbad : lineToObj "cube(bad syntax" (cleanSource mixedBuffer) = none := by
    with_unfolding_all rfl
  exact ⟨hbad, claim_C3_partial_rendering mixedBuffer _ _ h1 h2⟩

/-- Claim C4: for every valid `cube([x,y,z])` statement — the bracket
list parses to three positive components — the evaluated mesh is a box of
size `[x, y, z]` positioned at half its extent
(`mesh.position.set(x/2, y/2, z/2)`), so its axis-aligned bounding box in
the node local frame (before any parent transform) has its minimum corner
exactly at the origin and extents exactly `[x, y, z]`. -/
theorem claim_C4_cube_bbox (line cap : String) (x y z : ℚ)
    (hcap : cubeBracketCapture line = some cap)
    (hsplit : splitParams cap = [some x, some y, some z])
    (hx : 0 < x) (hy : 0 < y) (hz : 0 < z) :
    parseCube line = some (mkCubeMesh (some x) (some y) (some z)) ∧
    meshBBox (mkCubeMesh (some x) (some y) (some z)) =
      some ⟨⟨0, 0, 0⟩, ⟨x, y, z⟩⟩ ∧
    BBox.extents ⟨⟨0, 0, 0⟩, ⟨x, y, z⟩⟩ = ⟨x, y, z⟩ := by
  refine ⟨?_, ?_, ?_⟩
  · simp only [parseCube, hcap, hsplit, nthQN, List.get?, Option.getD]
    simp [jsOrQ, hx.ne', hy.ne', hz.ne']
  · have hminx : min (x / 2) (-(x / 2)) = -(x / 2) := min_eq_right (by linarith)
    have hminy : min (y / 2) (-(y / 2)) = -(y / 2) := min_eq_right (by linarith)
    have hminz : min (z / 2) (-(z / 2)) = -(z / 2) := min_eq_right (by linarith)
    have hmaxx : max (x / 2) (-(x / 2)) = x / 2 := max_eq_left (by linarith)
    have hmaxy : max (y / 2) (-(y / 2)) = y / 2 := max_eq_left (by linarith)
    have hmaxz : max (z / 2) (-(z / 2)) = z / 2 := max_eq_left (by linarith)
    simp only [meshBBox, mkCubeMesh, geomBBox, symIv, qnHalf, Option.map, vecP3,
      BBox.translate, P3.add, hminx, hminy, hminz, hmaxx, hmaxy, hmaxz, if_pos rfl]
    norm_num
  · simp only [BBox.extents]
    norm_num

/-- Witness for C4 at `cube([2,3,4])`. -/
theorem claim_C4_cube_bbox_witness :
    parseCube "cube([2,3,4])" = some (mkCubeMesh (some 2) (some 3) (some 4)) ∧
    meshBBox (mkCubeMesh (some 2) (some 3) (some 4)) =
      some ⟨⟨0, 0, 0⟩, ⟨2, 3, 4⟩⟩ ∧
    BBox.extents ⟨⟨0, 0, 0⟩, ⟨2, 3, 4⟩⟩ = ⟨2, 3, 4⟩ := by
  have hcap : cubeBracketCapture "cube([2,3,4])" = some "2,3,4" := by
    with_unfolding_all rfl
  have hsplit : splitParams "2,3,4" = [some 2, some 3, some 4] := by
    with_unfolding_all rfl
  exact claim_C4_cube_bbox "cube([2,3,4])" "2,3,4" 2 3 4 hcap hsplit
    (by norm_num) (by norm_num) (by norm_num)

/-- Claim C8: for any `translate([a,b,c])` wrapping a primitive, the
bounding box of the evaluated group (the translated primitive) is the
bounding box of the same primitive evaluated without the translate,
shifted by `(a,b,c)`; in particular its centre moves by exactly
`(a,b,c)`. -/
theorem claim_C8_translate_shift (line fullCode cap childLine : String)
    (a b c : ℚ) (m : Mesh) (bb : BBox)
    (hcap : firstCapture translateRe line = some cap)
    (hcoords : splitParams cap = [some a, some b, some c])
    (hchild : firstCapture translateChildRe fullCode = some childLine)
    (hm : parseTransformChild childLine = some m)
    (hbb : meshBBox m = some bb) :
    parseTranslate line fullCode
      = some (.group ⟨some a, some b, some c⟩ vzero [.mesh m]) ∧
    objBBox (.group ⟨some a, some b, some c⟩ vzero [.mesh m])
      = some (BBox.translate ⟨a, b, c⟩ bb) ∧
    BBox.center (BBox.translate ⟨a, b, c⟩ bb)
      = P3.add ⟨a, b, c⟩ (BBox.center bb) := by
  refine ⟨?_, ?_, ?_⟩
  · simp only [parseTranslate, hcap, hcoords, hchild, hm, nthQN, List.get?, Option.getD]
  · have h1 : objListBBox [Obj.mesh m] = some bb := by
      rw [objListBBox, objBBox]
      exact hbb
    rw [objBBox, if_pos rfl, h1]
    rfl
  · simp only [BBox.center, BBox.translate, P3.add, P3.mk.injEq]
    refine ⟨by ring, by ring, by ring⟩

/-- Witness for C8: `translate([1,2,3])` over `cube([4,4,4])`. -/
theorem claim_C8_translate_shift_witness :
    parseTranslate "translate([1,2,3])" "translate([1,2,3])\ncube([4,4,4]);"
      = some (.group ⟨some 1, some 2, some 3⟩ vzero
          [.mesh (mkCubeMesh (some 4) (some 4) (some 4))]) ∧
    objBBox (.group ⟨some 1, some 2, some 3⟩ vzero
        [.mesh (mkCubeMesh (some 4) (some 4) (some 4))])
      = some (BBox.translate ⟨1, 2, 3⟩ ⟨⟨0, 0, 0⟩, ⟨4, 4, 4⟩⟩) ∧
    BBox.center (BBox.translate ⟨1, 2, 3⟩ ⟨⟨0, 0, 0⟩, ⟨4, 4, 4⟩⟩)
      = P3.add ⟨1, 2, 3⟩ (BBox.center ⟨⟨0, 0, 0⟩, ⟨4, 4, 4⟩⟩) := by
  have hcap : firstCapture translateRe "translate([1,2,3])" = some "1,2,3" := by
    with_unfolding_all rfl
  have hcoords : splitParams "1,2,3" = [some 1, some 2, some 3] := by
    with_unfolding_all rfl
  have hchild : firstCapture translateChildRe "translate([1,2,3])\ncube([4,4,4]);"
      = some "cube([4,4,4])" := by with_unfolding_all rfl
  have hm : parseTransformChild "cube([4,4,4])"
      = some (mkCubeMesh (some 4) (some 4) (some 4)) := by with_unfolding_all rfl
  have hbb : meshBBox (mkCubeMesh (some 4) (some 4) (some 4))
      = some ⟨⟨0, 0, 0⟩, ⟨4, 4, 4⟩⟩ := by with_unfolding_all rfl
  exact claim_C8_translate_shift _ _ _ _ 1 2 3 _ _ hcap hcoords hchild hm hbb

/-- `parseCube` only ever builds a cube mesh (a box geometry with the
half-extent position, the cube material and no rotation). -/
theorem parseCube_shape (line : String) (m : Mesh) (h : parseCube line = some m) :
    ∃ sx sy sz, m = mkCubeMesh sx sy sz := by
  cases hb : cubeBracketCapture line with
  | some cap =>
    cases hp : splitParams cap with
    | nil =>
      simp only [parseCube, hb, hp, Option.some.injEq] at h
      exact ⟨_, _, _, h.symm⟩
    | cons p rest =>
      cases rest with
      | nil =>
        simp only [parseCube, hb, hp, Option.some.injEq] at h
        exact ⟨p, p, p, h.symm⟩
      | cons q rest2 =>
        simp only [parseCube, hb, hp, Option.some.injEq] at h
        exact ⟨_, _, _, h.symm⟩
  | none =>
    cases hs : cubeSingleCapture line with
    | some cap =>
      simp only [parseCube, hb, hs, Option.some.injEq] at h
      exact ⟨_, _, _, h.symm⟩
    | none =>
      simp only [parseCube, hb, hs] at h
      exact Option.noConfusion h

/-- The first cube found by the `parseDifference` loop is a cube mesh
recoloured with the difference material. -/
theorem firstCubeOfLines_shape : ∀ (ls : List String) (m : Mesh),
    firstCubeOfLines ls = some m →
    m.material = differenceMaterial ∧ ∃ sx sy sz, m.geom = .box sx sy sz
  | [], m, h => by cases h
  | l :: rest, m, h => by
    unfold firstCubeOfLines at h
    by_cases hsw : jsStartsWith (jsTrim l) "cube"
    · rw [if_pos hsw] at h
      cases hc : parseCube (jsTrim l) with
      | some cm =>
        rw [hc] at h
        obtain ⟨sx, sy, sz, hcm⟩ := parseCube_shape _ _ hc
        have hm : m = { cm with material := differenceMaterial } :=
          ((Option.some.injEq _ _).mp h).symm
        subst hm
        subst hcm
        exact ⟨rfl, sx, sy, sz, rfl⟩
      | none =>
        rw [hc] at h
        exact firstCubeOfLines_shape rest m h
    · rw [if_neg hsw] at h
      exact firstCubeOfLines_shape rest m h

/-- The spec example group, children on separate lines as in the spec
grammar (braces are written with character escapes). -/
def diffCubeSphere : String :=
  "difference() \x7b\n  cube([10,10,10]);\n  sphere(r=3);\n\x7d"

/-- The difference group with the children swapped: the first child is
the sphere. -/
def diffSphereCube : String :=
  "difference() \x7b\n  sphere(r=3);\n  cube([2,2,2]);\n\x7d"

/-- The recoloured cube `parseDifference` produces for `diffCubeSphere`. -/
def diffCube10 : Mesh :=
  { mkCubeMesh (some 10) (some 10) (some 10) with material := differenceMaterial }

/-- The recoloured cube `parseDifference` produces for `diffSphereCube`. -/
def diffCube2 : Mesh :=
  { mkCubeMesh (some 2) (some 2) (some 2) with material := differenceMaterial }

/-- Counterexample to claim C2 as stated: in the group
`difference() { sphere(r=3); cube([2,2,2]); }` the FIRST child is the
sphere, yet evaluation returns the cube mesh (the first child whose line
starts with `cube`), not the first child mesh — its geometry is a box,
not the sphere of radius 3. -/
theorem claim_C2_difference_counterexample :
    parseDifference diffSphereCube = some (.group vzero vzero [.mesh diffCube2]) ∧
      diffCube2.geom ≠ Geom.sphere (some 3) 32 32 := by
  constructor
  · with_unfolding_all rfl
  · intro h; cases h

/-- Claim C2 (amended): for every difference group, evaluation returns a
group holding at most one mesh: the first child whose line starts with
`cube`, parsed and recoloured with the difference material — never a
subtracted volume, and children before that cube (of any other kind) are
ignored.  In particular `difference() { cube([10,10,10]); sphere(r=3); }`
(children on separate lines) yields exactly the recoloured cube mesh. -/
theorem claim_C2_difference_amended :
    (∀ code g, parseDifference code = some g →
      ∃ cs, g = .group vzero vzero cs ∧
        (cs = [] ∨ ∃ m, cs = [.mesh m] ∧ m.material = differenceMaterial ∧
          ∃ sx sy sz, m.geom = Geom.box sx sy sz)) ∧
    parseDifference diffCubeSphere = some (.group vzero vzero [.mesh diffCube10]) := by
  constructor
  · intro code g h
    cases hc : firstCapture differenceRe code with
    | none =>
      simp only [parseDifference, hc] at h
      exact Option.noConfusion h
    | some content =>
      cases hf : firstCubeOfLines (jsSplit '\n' content) with
      | none =>
        simp only [parseDifference, hc, hf, Option.some.injEq] at h
        exact ⟨[], h.symm, Or.inl rfl⟩
      | some m =>
        simp only [parseDifference, hc, hf, Option.some.injEq] at h
        obtain ⟨hmat, hbox⟩ := firstCubeOfLines_shape _ _ hf
        exact ⟨[.mesh m], h.symm, Or.inr ⟨m, rfl, hmat, hbox⟩⟩
  · with_unfolding_all rfl

/-- Witness for C2 (amended), instantiating the general statement on the
spec example group. -/
theorem claim_C2_difference_amended_witness :
    ∃ cs, (Obj.group vzero vzero [.mesh diffCube10]) = .group vzero vzero cs ∧
      (cs = [] ∨ ∃ m, cs = [.mesh m] ∧ m.material = differenceMaterial ∧
        ∃ sx sy sz, m.geom = Geom.box sx sy sz) :=
  claim_C2_difference_amended.1 diffCubeSphere _ claim_C2_difference_amended.2

/-- The sphere mesh of radius 5 (`SphereGeometry(5, 32, 32)`). -/
def sphere5Mesh : Mesh := ⟨.sphere (some 5) 32 32, sphereMaterial, vzero, vzero⟩

/-- The cylinder mesh from all-default parameters
(`CylinderGeometry(1, 1, 1, 32)`). -/
def cylDefaultMesh : Mesh := ⟨.cylinder (some 1) (some 1) (some 1) 32, cylinderMaterial, vzero, cylRot⟩

/-- The cylinder mesh from `h=10, r1=3, r2=6`
(`CylinderGeometry(6, 3, 10, 32)`). -/
def cylNamedMesh : Mesh := ⟨.cylinder (some 6) (some 3) (some 10) 32, cylinderMaterial, vzero, cylRot⟩

/-- Counterexample to claim C5 as stated, in both of its failing parts:
(a) in `sphere(5, r=7)` both a positional and a named radius are present,
and the POSITIONAL one wins (radius 5, not the named 7), contradicting
named-parameter precedence; (b) `cylinder(10, 3, 6)` gives positional h
and radii, which the cylinder parser does not support at all — every
parameter falls back to its default 1 instead of `h=10, r1=3, r2=6`. -/
theorem claim_C5_params_counterexample :
    (parseSphere "sphere(5, r=7)" = some sphere5Mesh ∧
      sphere5Mesh.geom ≠ Geom.sphere (some 7) 32 32) ∧
    (parseCylinder "cylinder(10, 3, 6)" = some cylDefaultMesh ∧
      cylDefaultMesh.geom ≠ Geom.cylinder (some 6) (some 3) (some 10) 32) := by
  refine ⟨⟨?_, ?_⟩, ?_, ?_⟩
  · with_unfolding_all rfl
  · intro h
    have h5 : (some (5 : ℚ) : QN) = some 7 := by
      injection h
    have := Option.some.inj h5
    norm_num at this
  · with_unfolding_all rfl
  · intro h
    have h1 : (some (1 : ℚ) : QN) = some 6 := by
      injection h
    have := Option.some.inj h1
    norm_num at this

/-- Claim C5 (amended): parameter passing as the code implements it —
cube takes a positional size vector; sphere takes a positional radius or
a named `r=`, and when both are present the positional (first-matched)
one takes precedence; cylinder takes only the named `h`, `r`, `r1`, `r2`
parameters and ignores positional arguments entirely (all parameters fall
back to their defaults). -/
theorem claim_C5_params_amended :
    parseCube "cube([10,10,10])" = some (mkCubeMesh (some 10) (some 10) (some 10)) ∧
    parseSphere "sphere(r=5)" = some sphere5Mesh ∧
    parseSphere "sphere(5)" = some sphere5Mesh ∧
    parseSphere "sphere(5, r=7)" = some sphere5Mesh ∧
    parseCylinder "cylinder(h=10, r1=3, r2=6)" = some cylNamedMesh ∧
    parseCylinder "cylinder(10, 3, 6)" = some cylDefaultMesh := by
  refine ⟨?_, ?_, ?_, ?_, ?_, ?_⟩ <;> with_unfolding_all rfl

/-- Counterexample to claim C10 as stated: `cube([0])` has a bracketed
size list with fewer than three components, all of which parse to 0, yet
`parseCube` performs NO substitution on the single-component path — it
replicates the raw component, yielding a degenerate box of extents
`[0,0,0]` rather than any 1-substituted size. -/
theorem claim_C10_cube_counterexample :
    parseCube "cube([0])" = some (mkCubeMesh (some 0) (some 0) (some 0)) ∧
      mkCubeMesh (some 0) (some 0) (some 0) ≠ mkCubeMesh (some 1) (some 1) (some 1) ∧
      mkCubeMesh (some 0) (some 0) (some 0) ≠ mkCubeMesh (some 0) (some 1) (some 1) := by
  refine ⟨?_, ?_, ?_⟩
  · with_unfolding_all rfl
  · intro h
    have hg := congrArg Mesh.geom h
    simp [mkCubeMesh] at hg
  · intro h
    have hg := congrArg Mesh.geom h
    simp [mkCubeMesh] at hg

/-- Claim C10 (amended): on the bracketed-list path of `parseCube`, a
list of two or more components has each of its first three entries that
is missing, 0 or NaN replaced by 1 (JS `params[i] || 1`), so
`cube([10,0,5])` yields extents `[10,1,5]` and `cube([10,10])` yields
`[10,10,1]`; a single-component list is replicated to all three axes
unchanged, with no substitution. -/
theorem claim_C10_cube_size_defaults :
    (∀ line cap params, cubeBracketCapture line = some cap →
      splitParams cap = params → 2 ≤ params.length →
      parseCube line = some (mkCubeMesh (some (jsOrQ (nthQN params 0) 1))
        (some (jsOrQ (nthQN params 1) 1)) (some (jsOrQ (nthQN params 2) 1)))) ∧
    (∀ line cap p, cubeBracketCapture line = some cap →
      splitParams cap = [p] →
      parseCube line = some (mkCubeMesh p p p)) ∧
    parseCube "cube([10,0,5])" = some (mkCubeMesh (some 10) (some 1) (some 5)) ∧
    parseCube "cube([10,10])" = some (mkCubeMesh (some 10) (some 10) (some 1)) := by
  refine ⟨?_, ?_, ?_, ?_⟩
  · intro line cap params hcap hsplit hlen
    subst hsplit
    cases hp : splitParams cap with
    | nil => rw [hp] at hlen; simp at hlen
    | cons p rest =>
      cases rest with
      | nil => rw [hp] at hlen; simp at hlen
      | cons q rest2 => simp only [parseCube, hcap, hp]
  · intro line cap p hcap hsplit
    simp only [parseCube, hcap, hsplit]
  · with_unfolding_all rfl
  · with_unfolding_all rfl

/-- Witness for C10 (amended) at `cube([10,0,5])` (zero component
replaced by 1) and `cube([7])` (single component replicated). -/
theorem claim_C10_cube_size_defaults_witness :
    parseCube "cube([10,0,5])"
      = some (mkCubeMesh (some (jsOrQ (nthQN [some 10, some 0, some 5] 0) 1))
          (some (jsOrQ (nthQN [some 10, some 0, some 5] 1) 1))
          (some (jsOrQ (nthQN [some 10, some 0, some 5] 2) 1))) ∧
    parseCube "cube([7])" = some (mkCubeMesh (some 7) (some 7) (some 7)) := by
  have h1 : cubeBracketCapture "cube([10,0,5])" = some "10,0,5" := by
    with_unfolding_all rfl
  have h2 : splitParams "10,0,5" = [some 10, some 0, some 5] := by
    with_unfolding_all rfl
  have h3 : cubeBracketCapture "cube([7])" = some "7" := by with_unfolding_all rfl
  have h4 : splitParams "7" = [some 7] := by with_unfolding_all rfl
  exact ⟨claim_C10_cube_size_defaults.1 _ _ _ h1 h2 (by norm_num),
    claim_C10_cube_size_defaults.2.1 _ _ _ h3 h4⟩

/-- Witness for C7: a triangle whose three vertex normals all equal the
unit normal `(0,0,1)` gets exactly that facet normal; a triangle of a
mesh without a normal attribute gets the normalized edge cross
product. -/
theorem claim_C7_facet_normal_witness :
    triNormal true [⟨0, 0, 1⟩, ⟨0, 0, 1⟩, ⟨0, 0, 1⟩] 0 1 2 ⟨0, 0, 0⟩ ⟨1, 0, 0⟩ ⟨0, 1, 0⟩
      = .ok ⟨0, 0, 1⟩ ∧
    triNormal false [] 0 1 2 ⟨0, 0, 0⟩ ⟨1, 0, 0⟩ ⟨0, 1, 0⟩
      = .ok (normalizeV (P3.cross (P3.sub ⟨1, 0, 0⟩ ⟨0, 0, 0⟩) (P3.sub ⟨0, 1, 0⟩ ⟨0, 0, 0⟩))) := by
  constructor
  · exact (claim_C7_facet_normal true [⟨0, 0, 1⟩, ⟨0, 0, 1⟩, ⟨0, 0, 1⟩] 0 1 2
      ⟨0, 0, 0⟩ ⟨1, 0, 0⟩ ⟨0, 1, 0⟩ ⟨0, 0, 1⟩).1 rfl rfl rfl rfl (by norm_num [P3.dot])
  · exact (claim_C7_facet_normal false [] 0 1 2
      ⟨0, 0, 0⟩ ⟨1, 0, 0⟩ ⟨0, 1, 0⟩ ⟨0, 0, 1⟩).2 rfl
